import Mathlib

/-!
Shallow embedding of `krita_server/app.py`: the request-normalization and
image-compositing pipeline of the `zini` image-generation gateway.

The three request handlers (`f_txt2img`, `f_img2img`, `f_upscale`) and the
`/config` endpoint (`read_item`) are translated from `src/krita_server/app.py`.
External collaborators (the inference engine, PIL image primitives, the
sampler/upscaler registries, the clock, the config loader) are passed in as
explicit inputs, mirroring the spec's boundary contracts.  Helper functions
that live in `krita_server/utils.py` (absent from the sources) are modelled
from the spec where a claim depends on them.
-/

/-- Python `x or y` on an optional string field: the request value is used
when it is present and non-empty (truthy), else the default.  Translates the
pattern `req.field or opt["field"]` from app.py. -/
def pyOrStr : Option String → String → String
  | none, d => d
  | some s, d => if s = "" then d else s

/-- Python `x or y` on an optional integer field: the request value is used
when it is present and nonzero (truthy), else the default. -/
def pyOrInt : Option Int → Int → Int
  | none, d => d
  | some n, d => if n = 0 then d else n

/-- Python `x or y` on an optional rational (Python float) field: the request
value is used when it is present and nonzero, else the default. -/
def pyOrRat : Option ℚ → ℚ → ℚ
  | none, d => d
  | some q, d => if q = 0 then d else q

/-- Python `x or y` on an optional boolean field: `True` wins, `False` and
`None` fall back to the default. -/
def pyOrBool : Option Bool → Bool → Bool
  | none, d => d
  | some b, d => b || d

/-- Abstract PIL image: dimensions plus the PIL mode string (such as "RGB",
"RGBA" or "L").  Pixel content is modelled separately (`RGBImage` and
friends) for the compositing claim. -/
structure ImageA where
  width : Int
  height : Int
  format : String
deriving DecidableEq, Repr

/-- PIL `image.convert(m)`: same dimensions, new channel format. -/
def ImageA.convert (img : ImageA) (m : String) : ImageA :=
  { img with format := m }

/-- One profile of `krita_config.yaml`: the flat mapping of field name to
default value that `load_config()[key]` yields.  The union of the fields
read by the three handlers and the config endpoint. -/
structure Profile where
  face_restorer : String
  codeformer_weight : ℚ
  sampler_name : String
  seed : Int
  steps : Int
  use_gfpgan : Bool
  tiling : Bool
  n_iter : Int
  batch_size : Int
  cfg_scale : ℚ
  base_size : Int
  max_size : Int
  sample_path : String
  mode : Int
  mask_blur : Int
  inpainting_fill : Int
  denoising_strength : ℚ
  resize_mode : Int
  inpaint_full_res : Bool
  upscaler_name : String
  downscale_first : Bool
deriving DecidableEq, Repr

/-- Modelled from the spec: the config source is a nested mapping keyed by
profile name; `load_config` (in the absent `krita_server/utils.py`) re-reads
it from disk on every request.  A request handler therefore receives the
snapshot as a function from profile key to profile. -/
def Config : Type := String → Profile

/-- Txt2ImgRequest (from `krita_server/structs.py`, reconstructed from the
fields `f_txt2img` reads): every overridable field is optional. -/
structure Txt2ImgRequest where
  prompt : Option String
  negative_prompt : Option String
  sampler_name : Option String
  steps : Option Int
  use_gfpgan : Option Bool
  tiling : Option Bool
  batch_count : Option Int
  batch_size : Option Int
  cfg_scale : Option ℚ
  seed : Option Int
  base_size : Option Int
  max_size : Option Int
  orig_width : Int
  orig_height : Int
  face_restorer : Option String
  codeformer_weight : Option ℚ
deriving DecidableEq, Repr

/-- Img2ImgRequest, reconstructed from the fields `f_img2img` reads. -/
structure Img2ImgRequest where
  src_path : String
  mask_path : String
  mode : Option Int
  prompt : Option String
  negative_prompt : Option String
  sampler_name : Option String
  steps : Option Int
  mask_blur : Option Int
  inpainting_fill : Option Int
  use_gfpgan : Option Bool
  tiling : Option Bool
  batch_count : Option Int
  batch_size : Option Int
  cfg_scale : Option ℚ
  denoising_strength : Option ℚ
  seed : Option Int
  base_size : Option Int
  max_size : Option Int
  inpaint_full_res : Option Bool
  upscaler_name : Option String
  face_restorer : Option String
  codeformer_weight : Option ℚ
deriving DecidableEq, Repr

/-- UpscaleRequest, reconstructed from the fields `f_upscale` reads. -/
structure UpscaleRequest where
  src_path : String
  upscaler_name : Option String
  downscale_first : Option Bool
deriving DecidableEq, Repr

/-- The resolved positional arguments `f_txt2img` hands to
`modules.txt2img.txt2img` (constant filler arguments omitted). -/
structure Txt2ImgArgs where
  prompt : String
  negative_prompt : String
  steps : Int
  sampler_index : Nat
  use_gfpgan : Bool
  tiling : Bool
  n_iter : Int
  batch_size : Int
  cfg_scale : ℚ
  seed : Int
  height : Int
  width : Int
deriving DecidableEq, Repr

/-- The resolved positional arguments `f_img2img` hands to
`modules.img2img.img2img` (constant filler arguments omitted). -/
structure Img2ImgArgs where
  prompt : String
  negative_prompt : String
  image : ImageA
  mask : Option ImageA
  mode : Int
  steps : Int
  sampler_index : Nat
  mask_blur : Int
  inpainting_fill : Int
  use_gfpgan : Bool
  tiling : Bool
  n_iter : Int
  batch_size : Int
  cfg_scale : ℚ
  denoising_strength : ℚ
  seed : Int
  height : Int
  width : Int
  resize_mode : Int
  inpaint_full_res : Bool
deriving DecidableEq, Repr

/-- One entry of the shared upscaler registry `shared.sd_upscalers`. -/
structure Upscaler where
  name : String
  upscale : ImageA → Int → Int → ImageA

/-- A value of a JSON response dictionary: a string or a list of paths. -/
inductive RVal where
  | strV (s : String)
  | listV (l : List String)
deriving DecidableEq, Repr

/-- The external collaborators of the handlers: inference engine entry
points, PIL resize, file opening, the registries, the prompt-template
collector and the wall clock.  `clock n` is the value of the n-th
`int(time.time())` call a handler makes. -/
structure Services where
  txt2imgEngine : Txt2ImgArgs → List ImageA × String
  img2imgEngine : Img2ImgArgs → List ImageA × String
  resize_image : Int → ImageA → Int → Int → ImageA
  openImage : String → ImageA
  samplers : List String
  sd_upscalers : List Upscaler
  collect_prompt : Profile → String → String
  clock : Nat → Int

/-- Modelled from the spec: `get_sampler_index` (in the absent
`krita_server/utils.py`) looks a sampler name up in the registry; an unknown
name fails (UnknownSampler). -/
def get_sampler_index (samplers : List String) (name : String) : Option Nat :=
  samplers.findIdx? (fun s => s == name)

/-- Modelled from the spec: `get_upscaler_index` (in the absent
`krita_server/utils.py`) looks an upscaler name up in the ordered registry
whose index 0 is the sentinel "None"; an unknown name fails
(UnknownUpscaler). -/
def get_upscaler_index (ups : List Upscaler) (name : String) : Option Nat :=
  ups.findIdx? (fun u => u.name == name)

/-- Modelled from the spec: `save_img` (in the absent
`krita_server/utils.py`) writes the image under `sample_path/filename` and
returns that path. -/
def save_img (sample_path filename : String) : String :=
  sample_path ++ "/" ++ filename

/-- Rounding to the nearest multiple of 64 (ties upward), as required of
both outputs of the dimension fitter by the downstream engine's tiling. -/
def round64 (q : ℚ) : Int :=
  64 * ⌊q / 64 + 1 / 2⌋

/-- Modelled from the spec: `fix_aspect_ratio` lives in the absent
`krita_server/utils.py`; this follows spec section 4.1.  With
ratio = orig_width / orig_height: if ratio is at least 1, width is
base_size * ratio and height base_size, both scaled down proportionally
when width would exceed max_size; the portrait case is symmetric with the
height driven by base_size; both outputs are rounded to the nearest
multiple of 64. -/
def fix_aspect_ratio (base_size max_size orig_width orig_height : Int) : Int × Int :=
  let r : ℚ := (orig_width : ℚ) / (orig_height : ℚ)
  if 1 ≤ r then
    if (max_size : ℚ) < (base_size : ℚ) * r then
      ( round64 (max_size : ℚ),
        round64 ((base_size : ℚ) * ((max_size : ℚ) / ((base_size : ℚ) * r))) )
    else
      ( round64 ((base_size : ℚ) * r), round64 (base_size : ℚ) )
  else
    if (max_size : ℚ) < (base_size : ℚ) / r then
      ( round64 ((base_size : ℚ) * ((max_size : ℚ) / ((base_size : ℚ) / r))),
        round64 (max_size : ℚ) )
    else
      ( round64 (base_size : ℚ), round64 ((base_size : ℚ) / r) )

/-- Everything observable about one run of `f_txt2img`: the face-restorer
side effect, the resolved engine arguments, the resized output images, the
engine info string, the (timestamp, index) pair used to name each saved
file, the returned paths and the response dictionary. -/
structure Txt2ImgTrace where
  face_restorer_set : String × ℚ
  args : Txt2ImgArgs
  images : List ImageA
  info : String
  stamps : List (Int × Nat)
  outputs : List String
  response : List (String × RVal)
deriving DecidableEq, Repr

/-- Translation of `f_txt2img` (app.py lines 53-119), instrumented to return
the full trace.  A failed sampler lookup raises, modelled as `Except.error`. -/
def f_txt2img_trace (sv : Services) (cfg : Config) (req : Txt2ImgRequest) :
    Except String Txt2ImgTrace :=
  let opt := cfg "txt2img"
  let fr := (pyOrStr req.face_restorer opt.face_restorer,
             pyOrRat req.codeformer_weight opt.codeformer_weight)
  match get_sampler_index sv.samplers (pyOrStr req.sampler_name opt.sampler_name) with
  | none => Except.error "UnknownSampler"
  | some sampler_index =>
    let seed := match req.seed with
      | none => opt.seed
      | some s => s
    let wh := fix_aspect_ratio (pyOrInt req.base_size opt.base_size)
      (pyOrInt req.max_size opt.max_size) req.orig_width req.orig_height
    let args : Txt2ImgArgs :=
      { prompt := pyOrStr req.prompt (sv.collect_prompt opt "prompts")
        negative_prompt := pyOrStr req.negative_prompt (sv.collect_prompt opt "negative_prompt")
        steps := pyOrInt req.steps opt.steps
        sampler_index := sampler_index
        use_gfpgan := pyOrBool req.use_gfpgan opt.use_gfpgan
        tiling := pyOrBool req.tiling opt.tiling
        n_iter := pyOrInt req.batch_count opt.n_iter
        batch_size := pyOrInt req.batch_size opt.batch_size
        cfg_scale := pyOrRat req.cfg_scale opt.cfg_scale
        seed := seed
        height := wh.2
        width := wh.1 }
    let eng := sv.txt2imgEngine args
    let resized := eng.1.map (fun im => sv.resize_image 0 im req.orig_width req.orig_height)
    let stamps := resized.enum.map (fun p => (sv.clock p.1, p.1))
    let outputs := stamps.map
      (fun p => save_img opt.sample_path (toString p.1 ++ "_" ++ toString p.2 ++ ".png"))
    Except.ok
      { face_restorer_set := fr
        args := args
        images := resized
        info := eng.2
        stamps := stamps
        outputs := outputs
        response := [("outputs", RVal.listV outputs), ("info", RVal.strV eng.2)] }

/-- The `/txt2img` endpoint's visible response. -/
def f_txt2img (sv : Services) (cfg : Config) (req : Txt2ImgRequest) :
    Except String (List (String × RVal)) :=
  (f_txt2img_trace sv cfg req).map (fun t => t.response)

/-- Everything observable about one run of `f_img2img`. `resolvedMode` is
the mode after defaulting but before the 3-to-2 remap; `args.mode` is the
remapped mode sent to the engine. -/
structure Img2ImgTrace where
  face_restorer_set : String × ℚ
  resolvedMode : Int
  origW : Int
  origH : Int
  args : Img2ImgArgs
  images : List ImageA
  info : String
  stamps : List (Int × Nat)
  outputs : List String
  response : List (String × RVal)
deriving DecidableEq, Repr

/-- PIL compositing step of `f_img2img` at the abstract image level: a fresh
transparent RGBA canvas of the image's size receives the image pasted under
the mask; dimensions are preserved and the result is RGBA.  Pixel content is
modelled exactly by `remove_not_masked` below. -/
def remove_not_maskedA (img : ImageA) : ImageA :=
  { width := img.width, height := img.height, format := "RGBA" }

/-- Translation of `f_img2img` (app.py lines 122-231), instrumented to
return the full trace. -/
def f_img2img_trace (sv : Services) (cfg : Config) (req : Img2ImgRequest) :
    Except String Img2ImgTrace :=
  let opt := cfg "img2img"
  let fr := (pyOrStr req.face_restorer opt.face_restorer,
             pyOrRat req.codeformer_weight opt.codeformer_weight)
  match get_sampler_index sv.samplers (pyOrStr req.sampler_name opt.sampler_name) with
  | none => Except.error "UnknownSampler"
  | some sampler_index =>
    let seed := match req.seed with
      | none => opt.seed
      | some s => s
    let mode0 := pyOrInt req.mode opt.mode
    let image0 := sv.openImage req.src_path
    let origW := image0.width
    let origH := image0.height
    let mask := if mode0 = 1 then some ((sv.openImage req.mask_path).convert "L") else none
    let mode := if mode0 = 3 then 2 else mode0
    match get_upscaler_index sv.sd_upscalers (pyOrStr req.upscaler_name opt.upscaler_name) with
    | none => Except.error "UnknownUpscaler"
    | some upscaler_index =>
      let base_size := pyOrInt req.base_size opt.base_size
      let whImage : Int × Int × ImageA :=
        if mode = 2 then
          (base_size, base_size,
            if 0 < upscaler_index then image0.convert "RGB" else image0)
        else
          let wh := fix_aspect_ratio base_size (pyOrInt req.max_size opt.max_size) origW origH
          (wh.1, wh.2, image0)
      let args : Img2ImgArgs :=
        { prompt := pyOrStr req.prompt (sv.collect_prompt opt "prompts")
          negative_prompt := pyOrStr req.negative_prompt (sv.collect_prompt opt "negative_prompt")
          image := whImage.2.2
          mask := mask
          mode := mode
          steps := pyOrInt req.steps opt.steps
          sampler_index := sampler_index
          mask_blur := pyOrInt req.mask_blur opt.mask_blur
          inpainting_fill := pyOrInt req.inpainting_fill opt.inpainting_fill
          use_gfpgan := pyOrBool req.use_gfpgan opt.use_gfpgan
          tiling := pyOrBool req.tiling opt.tiling
          n_iter := pyOrInt req.batch_count opt.n_iter
          batch_size := pyOrInt req.batch_size opt.batch_size
          cfg_scale := pyOrRat req.cfg_scale opt.cfg_scale
          denoising_strength := pyOrRat req.denoising_strength opt.denoising_strength
          seed := seed
          height := whImage.2.1
          width := whImage.1
          resize_mode := opt.resize_mode
          inpaint_full_res := pyOrBool req.inpaint_full_res opt.inpaint_full_res }
      let eng := sv.img2imgEngine args
      let resized := eng.1.map (fun im => sv.resize_image 0 im origW origH)
      let composited := if mode = 1 then resized.map remove_not_maskedA else resized
      let stamps := composited.enum.map (fun p => (sv.clock p.1, p.1))
      let outputs := stamps.map
        (fun p => save_img opt.sample_path (toString p.1 ++ "_" ++ toString p.2 ++ ".png"))
      Except.ok
        { face_restorer_set := fr
          resolvedMode := mode0
          origW := origW
          origH := origH
          args := args
          images := composited
          info := eng.2
          stamps := stamps
          outputs := outputs
          response := [("outputs", RVal.listV outputs), ("info", RVal.strV eng.2)] }

/-- The `/img2img` endpoint's visible response. -/
def f_img2img (sv : Services) (cfg : Config) (req : Img2ImgRequest) :
    Except String (List (String × RVal)) :=
  (f_img2img_trace sv cfg req).map (fun t => t.response)

/-- Outcome of one run of `f_upscale`: an exception, the bare `return`
(Python None) of the no-op upscaler path, or the response dictionary. -/
inductive UpscaleOutcome where
  | err (msg : String)
  | noop
  | ok (response : List (String × RVal))
deriving DecidableEq, Repr

/-- Translation of `f_upscale` (app.py lines 234-269); the second component
is the list of files written. -/
def f_upscale_run (sv : Services) (cfg : Config) (req : UpscaleRequest) :
    UpscaleOutcome × List String :=
  let opt := cfg "upscale"
  let image0 := (sv.openImage req.src_path).convert "RGB"
  let origW := image0.width
  let origH := image0.height
  match get_upscaler_index sv.sd_upscalers (pyOrStr req.upscaler_name opt.upscaler_name) with
  | none => (UpscaleOutcome.err "UnknownUpscaler", [])
  | some upscaler_index =>
    match sv.sd_upscalers[upscaler_index]? with
    | none => (UpscaleOutcome.err "IndexError", [])
    | some upscaler =>
      if upscaler.name = "None" then (UpscaleOutcome.noop, [])
      else
        let image1 := if pyOrBool req.downscale_first opt.downscale_first then
            sv.resize_image 0 image0 (origW / 2) (origH / 2)
          else image0
        let upscaled := upscaler.upscale image1 (2 * origW) (2 * origH)
        let resized := sv.resize_image 0 upscaled origW origH
        let output := save_img opt.sample_path (toString (sv.clock 0) ++ ".png")
        (UpscaleOutcome.ok [("output", RVal.strV output)], [output])

/-- Translation of the `/config` endpoint `read_item` (app.py lines 25-50):
reads the plugin profile and reports the next image path, mask path and the
registry's upscaler names. -/
def read_item (sv : Services) (cfg : Config) : List (String × RVal) :=
  let opt := cfg "plugin"
  let filename := toString (sv.clock 0)
  let path := opt.sample_path ++ "/" ++ filename
  [("new_img", RVal.strV (path ++ ".png")),
   ("new_img_mask", RVal.strV (path ++ "_mask.png")),
   ("upscalers", RVal.listV (sv.sd_upscalers.map (fun u => u.name))),
   ("sample_path", RVal.strV opt.sample_path)]

/-- A single-channel (PIL mode "L") mask image with explicit pixels. -/
structure GrayImage where
  width : Nat
  height : Nat
  px : Nat × Nat → Nat

/-- A three-channel RGB image with explicit pixels. -/
structure RGBImage where
  width : Nat
  height : Nat
  px : Nat × Nat → Nat × Nat × Nat

/-- A four-channel RGBA image with explicit pixels. -/
structure RGBAImage where
  width : Nat
  height : Nat
  px : Nat × Nat → Nat × Nat × Nat × Nat

/-- PIL `Image.new("RGBA", (w, h), (0, 0, 0, 0))`: the fully transparent
canvas. -/
def Image_new_RGBA (w h : Nat) : RGBAImage :=
  { width := w, height := h, px := fun _ => (0, 0, 0, 0) }

/-- PIL `canvas.paste(img, (0, 0), mask=mask)` with a single-channel mask:
each channel of the result blends the pasted image (alpha taken as 255 for
an RGB source) with the canvas, weighted by the mask value out of 255. -/
def pasteMasked (canvas : RGBAImage) (img : RGBImage) (mask : GrayImage) : RGBAImage :=
  { width := canvas.width
    height := canvas.height
    px := fun p =>
      let m := mask.px p
      let c := canvas.px p
      let s := img.px p
      ((s.1 * m + c.1 * (255 - m)) / 255,
       (s.2.1 * m + c.2.1 * (255 - m)) / 255,
       (s.2.2 * m + c.2.2.1 * (255 - m)) / 255,
       (255 * m + c.2.2.2 * (255 - m)) / 255) }

/-- Translation of `remove_not_masked` (app.py lines 217-220): a fully
transparent RGBA canvas of the image's size, with the image pasted under
the mask. -/
def remove_not_masked (mask : GrayImage) (img : RGBImage) : RGBAImage :=
  pasteMasked (Image_new_RGBA img.width img.height) img mask

/-! Helper lemmas. -/

/-- The tiling rounding is the standard nearest-integer rounding of q / 64,
scaled by 64. -/
lemma round64_eq_round (q : ℚ) : round64 q = 64 * round (q / 64) := by
  rw [round_eq, round64]

/-- The tiling rounding moves a value by at most 32. -/
lemma abs_round64_sub (q : ℚ) : |((round64 q : Int) : ℚ) - q| ≤ 32 := by
  have h : |q / 64 - ((round (q / 64) : Int) : ℚ)| ≤ 1 / 2 := abs_sub_round (q / 64)
  have h2 : ((round64 q : Int) : ℚ) - q = 64 * (((round (q / 64) : Int) : ℚ) - q / 64) := by
    rw [round64_eq_round]
    push_cast
    ring
  rw [h2, abs_mul]
  have h64 : |(64 : ℚ)| = 64 := by norm_num
  rw [h64, abs_sub_comm]
  linarith

/-- The tiling rounding is monotone. -/
lemma round64_mono {a b : ℚ} (hab : a ≤ b) : round64 a ≤ round64 b := by
  rw [round64, round64]
  have hd : a / 64 + 1 / 2 ≤ b / 64 + 1 / 2 := by linarith
  have hf : ⌊a / 64 + 1 / 2⌋ ≤ ⌊b / 64 + 1 / 2⌋ := Int.floor_le_floor hd
  omega

/-- Mapping a function of the index over an enumerated list is mapping it
over the range of its length. -/
lemma enum_map_fst_fun {α β : Type _} (l : List α) (f : Nat → β) :
    l.enum.map (fun p => f p.1) = (List.range l.length).map f := by
  have h1 : (fun p : Nat × α => f p.1) = f ∘ Prod.fst := rfl
  rw [List.enum_eq_zip_range, h1, ← List.map_map]
  rw [List.map_fst_zip _ _ (by rw [List.length_range])]

/-! Concrete fixtures used by witnesses and counterexamples. -/

/-- A sample opened image, 100 wide and 50 high. -/
def imgC : ImageA := { width := 100, height := 50, format := "RGB" }

/-- The sentinel registry entry "None": performs no upscaling. -/
def upNoneC : Upscaler := { name := "None", upscale := fun im _ _ => im }

/-- A real upscaler registry entry. -/
def upLanczosC : Upscaler :=
  { name := "Lanczos", upscale := fun im w h => { im with width := w, height := h } }

/-- A sample configuration profile. -/
def profC : Profile :=
  { face_restorer := "CodeFormer"
    codeformer_weight := 1/2
    sampler_name := "Euler a"
    seed := -1
    steps := 20
    use_gfpgan := false
    tiling := false
    n_iter := 1
    batch_size := 1
    cfg_scale := 12
    base_size := 512
    max_size := 768
    sample_path := "out"
    mode := 0
    mask_blur := 4
    inpainting_fill := 1
    denoising_strength := 1/2
    resize_mode := 1
    inpaint_full_res := false
    upscaler_name := "None"
    downscale_first := false }

/-- A config source answering every profile key with `profC`. -/
def cfgC : Config := fun _ => profC

/-- A config source whose "txt2img" profile defaults steps to 7 while a
profile under the key "generate" defaults steps to 9. -/
def cfgK : Config := fun k =>
  if k = "txt2img" then { profC with steps := 7 }
  else if k = "generate" then { profC with steps := 9 }
  else profC

/-- A second config source agreeing with `cfgK` on "txt2img" (and the other
keys the handlers read) but not on "generate". -/
def cfgK2 : Config := fun k =>
  if k = "txt2img" then { profC with steps := 7 }
  else if k = "generate" then { profC with steps := 123 }
  else profC

/-- Concrete services: the txt2img engine yields two images, the img2img
engine one image, and each call of int(time.time()) ticks the clock. -/
def svC : Services :=
  { txt2imgEngine := fun _ => ([imgC, imgC], "engine-info")
    img2imgEngine := fun _ => ([imgC], "engine-info")
    resize_image := fun _ im w h => { im with width := w, height := h }
    openImage := fun _ => imgC
    samplers := ["Euler a"]
    sd_upscalers := [upNoneC, upLanczosC]
    collect_prompt := fun _ _ => "default prompt"
    clock := fun n => (n : Int) }

/-- The same services with a clock frozen at second 5. -/
def svC5 : Services := { svC with clock := fun _ => 5 }

/-- A txt2img request overriding nothing. -/
def reqT0 : Txt2ImgRequest :=
  { prompt := none
    negative_prompt := none
    sampler_name := none
    steps := none
    use_gfpgan := none
    tiling := none
    batch_count := none
    batch_size := none
    cfg_scale := none
    seed := none
    base_size := none
    max_size := none
    orig_width := 1000
    orig_height := 500
    face_restorer := none
    codeformer_weight := none }

/-- A txt2img request with an explicit zero step count and an explicit zero
seed. -/
def reqTZ : Txt2ImgRequest := { reqT0 with steps := some 0, seed := some 0 }

/-- An img2img request overriding nothing except the mode. -/
def reqI (m : Option Int) : Img2ImgRequest :=
  { src_path := "src.png"
    mask_path := "mask.png"
    mode := m
    prompt := none
    negative_prompt := none
    sampler_name := none
    steps := none
    mask_blur := none
    inpainting_fill := none
    use_gfpgan := none
    tiling := none
    batch_count := none
    batch_size := none
    cfg_scale := none
    denoising_strength := none
    seed := none
    base_size := none
    max_size := none
    inpaint_full_res := none
    upscaler_name := none
    face_restorer := none
    codeformer_weight := none }

/-- An img2img crop-region request selecting the real upscaler. -/
def reqI2L : Img2ImgRequest := { reqI (some 2) with upscaler_name := some "Lanczos" }

/-- An upscale request overriding nothing: the configured default upscaler
name is the sentinel "None". -/
def reqU0 : UpscaleRequest :=
  { src_path := "src.png", upscaler_name := none, downscale_first := none }

/-- An upscale request selecting the real upscaler. -/
def reqUL : UpscaleRequest :=
  { src_path := "src.png", upscaler_name := some "Lanczos", downscale_first := none }

/-- A two-pixel mask: zero at the left pixel, 255 at the right pixel. -/
def maskC : GrayImage :=
  { width := 2, height := 1, px := fun p => if p.1 = 0 then 0 else 255 }

/-- A two-pixel generated image with a constant pixel value. -/
def genC : RGBImage :=
  { width := 2, height := 1, px := fun _ => (10, 20, 30) }

/-! Claim theorems. -/

/-- C3: for every upscale request whose resolved upscaler is the registry
entry named "None", `f_upscale` returns the bare `return` (an empty/absent
result), writes no file, and raises no error. -/
theorem upscale_none_noop (sv : Services) (cfg : Config) (req : UpscaleRequest)
    (i : Nat) (u : Upscaler)
    (hi : get_upscaler_index sv.sd_upscalers
      (pyOrStr req.upscaler_name (cfg "upscale").upscaler_name) = some i)
    (hu : sv.sd_upscalers[i]? = some u) (hname : u.name = "None") :
    f_upscale_run sv cfg req = (UpscaleOutcome.noop, []) := by
  simp [f_upscale_run, hi, hu, hname]

/-- Witness: the default upscale request against the sample config resolves
to the sentinel at index 0 and the handler is a no-op. -/
theorem upscale_none_noop_witness :
    get_upscaler_index svC.sd_upscalers
      (pyOrStr reqU0.upscaler_name (cfgC "upscale").upscaler_name) = some 0 ∧
    svC.sd_upscalers[0]? = some upNoneC ∧ upNoneC.name = "None" ∧
    f_upscale_run svC cfgC reqU0 = (UpscaleOutcome.noop, []) :=
  ⟨rfl, rfl, rfl, upscale_none_noop svC cfgC reqU0 0 upNoneC rfl rfl rfl⟩

/-- C4: in masked compositing, pasting the output onto a fully transparent
canvas with a binary mask as alpha stencil leaves every zero-mask pixel
fully transparent and shows the generated content (at full alpha) at every
nonzero-mask pixel. -/
theorem remove_not_masked_stencil (mask : GrayImage) (img : RGBImage)
    (hbin : ∀ p, mask.px p = 0 ∨ mask.px p = 255) (p : Nat × Nat) :
    (mask.px p = 0 → (remove_not_masked mask img).px p = (0, 0, 0, 0)) ∧
    (mask.px p ≠ 0 → (remove_not_masked mask img).px p =
      ((img.px p).1, (img.px p).2.1, (img.px p).2.2, 255)) := by
  rcases hbin p with h | h
  · refine ⟨fun _ => ?_, fun hne => absurd h hne⟩
    simp [remove_not_masked, pasteMasked, Image_new_RGBA, h]
  · constructor
    · intro h0
      rw [h] at h0
      cases h0
    · intro _
      simp [remove_not_masked, pasteMasked, Image_new_RGBA, h]

/-- Witness: on a two-pixel mask that is 0 on the left and 255 on the
right, compositing makes the left pixel transparent and keeps the right
pixel's generated content. -/
theorem remove_not_masked_stencil_witness :
    (∀ p, maskC.px p = 0 ∨ maskC.px p = 255) ∧
    (remove_not_masked maskC genC).px (0, 0) = (0, 0, 0, 0) ∧
    (remove_not_masked maskC genC).px (1, 0) = (10, 20, 30, 255) := by
  have hb : ∀ p, maskC.px p = 0 ∨ maskC.px p = 255 := by
    intro p
    by_cases hp : p.1 = 0
    · exact Or.inl (by simp [maskC, hp])
    · exact Or.inr (by simp [maskC, hp])
  refine ⟨hb, ?_, ?_⟩
  · exact (remove_not_masked_stencil maskC genC hb (0, 0)).1 (by simp [maskC])
  · have h := (remove_not_masked_stencil maskC genC hb (1, 0)).2 (by simp [maskC])
    simpa [genC] using h

/-- C10: seed resolution alone distinguishes an absent seed from an
explicit zero: an explicit seed 0 reaches the engine unchanged and the
configured default is used only for an absent seed, while another numeric
field (steps) falls back to its default on an explicit zero. -/
theorem seed_distinguishes_none_from_zero (sv : Services) (cfg : Config)
    (reqt : Txt2ImgRequest) (reqi : Img2ImgRequest) :
    (∀ t, f_txt2img_trace sv cfg reqt = Except.ok t →
      (reqt.seed = some 0 → t.args.seed = 0) ∧
      (reqt.seed = none → t.args.seed = (cfg "txt2img").seed) ∧
      (reqt.steps = some 0 → t.args.steps = (cfg "txt2img").steps)) ∧
    (∀ t, f_img2img_trace sv cfg reqi = Except.ok t →
      (reqi.seed = some 0 → t.args.seed = 0) ∧
      (reqi.seed = none → t.args.seed = (cfg "img2img").seed)) := by
  constructor
  · intro t hok
    cases hs : get_sampler_index sv.samplers
        (pyOrStr reqt.sampler_name (cfg "txt2img").sampler_name) with
    | none =>
      simp only [f_txt2img_trace, hs] at hok
      exact Except.noConfusion hok
    | some si =>
      simp only [f_txt2img_trace, hs, Except.ok.injEq] at hok
      subst hok
      refine ⟨fun h => ?_, fun h => ?_, fun h => ?_⟩
      · simp [h]
      · simp [h]
      · simp [h, pyOrInt]
  · intro t hok
    cases hs : get_sampler_index sv.samplers
        (pyOrStr reqi.sampler_name (cfg "img2img").sampler_name) with
    | none =>
      simp only [f_img2img_trace, hs] at hok
      exact Except.noConfusion hok
    | some si =>
      cases hu : get_upscaler_index sv.sd_upscalers
          (pyOrStr reqi.upscaler_name (cfg "img2img").upscaler_name) with
      | none =>
        simp only [f_img2img_trace, hs, hu] at hok
        exact Except.noConfusion hok
      | some ui =>
        simp only [f_img2img_trace, hs, hu, Except.ok.injEq] at hok
        subst hok
        refine ⟨fun h => ?_, fun h => ?_⟩
        · simp [h]
        · simp [h]

/-- Witness: with an explicit zero seed and zero steps, the engine receives
seed 0 but the default step count 20. -/
theorem seed_distinguishes_none_from_zero_witness :
    ∃ t, f_txt2img_trace svC cfgC reqTZ = Except.ok t ∧
      t.args.seed = 0 ∧ t.args.steps = (cfgC "txt2img").steps := by
  refine ⟨_, rfl, ?_, ?_⟩
  · exact ((seed_distinguishes_none_from_zero svC cfgC reqTZ (reqI (some 0))).1 _ rfl).1 rfl
  · exact ((seed_distinguishes_none_from_zero svC cfgC reqTZ (reqI (some 0))).1 _ rfl).2.2 rfl

/-- C1 counterexample: a request field explicitly set to zero (steps = 0,
which is neither absent, nor the empty string, nor None) is NOT returned by
the resolver; the configured default 20 is returned instead. -/
theorem resolver_zero_cex :
    Except.map (fun t => t.args.steps) (f_txt2img_trace svC cfgC reqTZ) = Except.ok 20 ∧
    (20 : Int) ≠ 0 := by
  constructor
  · rfl
  · decide

/-- C1 (amended): resolution uses Python truthiness: the request value is
returned whenever it is truthy (present and nonzero / non-empty); absent
fields and explicit falsy values (zero, empty string) fall back to the
configured default. -/
theorem resolver_truthiness (sv : Services) (cfg : Config) (req : Txt2ImgRequest)
    (t : Txt2ImgTrace) (hok : f_txt2img_trace sv cfg req = Except.ok t) :
    (req.steps = none → t.args.steps = (cfg "txt2img").steps) ∧
    (∀ n : Int, req.steps = some n → n ≠ 0 → t.args.steps = n) ∧
    (req.steps = some 0 → t.args.steps = (cfg "txt2img").steps) ∧
    (∀ q : ℚ, req.cfg_scale = some q → q ≠ 0 → t.args.cfg_scale = q) ∧
    (req.cfg_scale = none → t.args.cfg_scale = (cfg "txt2img").cfg_scale) ∧
    (∀ s : String, req.prompt = some s → s ≠ "" →
      t.args.prompt = s) := by
  cases hs : get_sampler_index sv.samplers
      (pyOrStr req.sampler_name (cfg "txt2img").sampler_name) with
  | none =>
    simp only [f_txt2img_trace, hs] at hok
    exact Except.noConfusion hok
  | some si =>
    simp only [f_txt2img_trace, hs, Except.ok.injEq] at hok
    subst hok
    refine ⟨fun h => by simp [h, pyOrInt], fun n h hn => by simp [h, pyOrInt, hn],
      fun h => by simp [h, pyOrInt], fun q h hq => by simp [h, pyOrRat, hq],
      fun h => by simp [h, pyOrRat], fun s h hs2 => by simp [h, pyOrStr, hs2]⟩

/-- Witness: a request with no overrides resolves steps to the configured
default. -/
theorem resolver_truthiness_witness :
    ∃ t, f_txt2img_trace svC cfgC reqT0 = Except.ok t ∧
      t.args.steps = (cfgC "txt2img").steps :=
  ⟨_, rfl, (resolver_truthiness svC cfgC reqT0 _ rfl).1 rfl⟩

/-- C2: in the edit operation a mask is loaded if and only if the resolved
mode is 1; mode 3 is remapped to 2 before the engine is invoked, and the
remap happens after the mask-loading decision, so a mode-3 request never
loads a mask. -/
theorem img2img_mask_mode (sv : Services) (cfg : Config) (req : Img2ImgRequest)
    (t : Img2ImgTrace) (hok : f_img2img_trace sv cfg req = Except.ok t) :
    (t.args.mask.isSome = true ↔ pyOrInt req.mode (cfg "img2img").mode = 1) ∧
    t.args.mode = (if pyOrInt req.mode (cfg "img2img").mode = 3 then 2
      else pyOrInt req.mode (cfg "img2img").mode) ∧
    (pyOrInt req.mode (cfg "img2img").mode = 3 → t.args.mask = none) := by
  cases hs : get_sampler_index sv.samplers
      (pyOrStr req.sampler_name (cfg "img2img").sampler_name) with
  | none =>
    simp only [f_img2img_trace, hs] at hok
    exact Except.noConfusion hok
  | some si =>
    cases hu : get_upscaler_index sv.sd_upscalers
        (pyOrStr req.upscaler_name (cfg "img2img").upscaler_name) with
    | none =>
      simp only [f_img2img_trace, hs, hu] at hok
      exact Except.noConfusion hok
    | some ui =>
      simp only [f_img2img_trace, hs, hu, Except.ok.injEq] at hok
      subst hok
      refine ⟨?_, rfl, ?_⟩
      · by_cases hm : pyOrInt req.mode (cfg "img2img").mode = 1 <;> simp [hm]
      · intro h3
        simp [h3]

/-- Witness: a mode-3 (uncrop) edit request loads no mask and reaches the
engine with mode 2. -/
theorem img2img_mask_mode_witness :
    ∃ t, f_img2img_trace svC cfgC (reqI (some 3)) = Except.ok t ∧
      t.args.mask = none ∧ t.args.mode = 2 := by
  refine ⟨_, rfl, ?_, ?_⟩
  · exact (img2img_mask_mode svC cfgC (reqI (some 3)) _ rfl).2.2 rfl
  · have h := (img2img_mask_mode svC cfgC (reqI (some 3)) _ rfl).2.1
    rw [h]
    rfl

/-- C7: for every edit request whose mode after the 3-to-2 remap is 2
(crop region), the working dimensions handed to the engine are exactly
(base_size, base_size), and with any upscaler other than the index-0
sentinel selected, the source image reaches the engine converted to
three-channel RGB. -/
theorem img2img_crop_region (sv : Services) (cfg : Config) (req : Img2ImgRequest)
    (t : Img2ImgTrace) (hok : f_img2img_trace sv cfg req = Except.ok t)
    (hm : (if pyOrInt req.mode (cfg "img2img").mode = 3 then 2
      else pyOrInt req.mode (cfg "img2img").mode) = 2) :
    t.args.width = pyOrInt req.base_size (cfg "img2img").base_size ∧
    t.args.height = pyOrInt req.base_size (cfg "img2img").base_size ∧
    (∀ i, get_upscaler_index sv.sd_upscalers
        (pyOrStr req.upscaler_name (cfg "img2img").upscaler_name) = some i →
      0 < i → t.args.image.format = "RGB") := by
  cases hs : get_sampler_index sv.samplers
      (pyOrStr req.sampler_name (cfg "img2img").sampler_name) with
  | none =>
    simp only [f_img2img_trace, hs] at hok
    exact Except.noConfusion hok
  | some si =>
    cases hu : get_upscaler_index sv.sd_upscalers
        (pyOrStr req.upscaler_name (cfg "img2img").upscaler_name) with
    | none =>
      simp only [f_img2img_trace, hs, hu] at hok
      exact Except.noConfusion hok
    | some ui =>
      simp only [f_img2img_trace, hs, hu, Except.ok.injEq] at hok
      subst hok
      refine ⟨by simp [hm], by simp [hm], ?_⟩
      intro i hi hpos
      have hii : ui = i := Option.some.inj hi
      subst hii
      simp [hm, hpos, ImageA.convert]

/-- Witness: a mode-2 edit request selecting the real upscaler gets the
square working canvas of the default base size and an RGB source image. -/
theorem img2img_crop_region_witness :
    ∃ t, f_img2img_trace svC cfgC reqI2L = Except.ok t ∧
      t.args.width = 512 ∧ t.args.height = 512 ∧ t.args.image.format = "RGB" := by
  have h := img2img_crop_region svC cfgC reqI2L _ rfl (by decide)
  refine ⟨_, rfl, ?_, ?_, ?_⟩
  · rw [h.1]
    rfl
  · rw [h.2.1]
    rfl
  · exact h.2.2 1 rfl (by decide)

/-- C6 counterexample: a successful upscale run's response carries only the
"output" key; the engine info string is absent from the response. -/
theorem upscale_no_info_cex :
    f_upscale_run svC cfgC reqUL =
      (UpscaleOutcome.ok [("output", RVal.strV "out/0.png")], ["out/0.png"]) ∧
    "info" ∉ ([("output", RVal.strV "out/0.png")].map Prod.fst) := by
  constructor
  · rfl
  · decide

/-- C6 (amended): the generate and edit responses carry both the persisted
output paths and the engine's info string, while a successful upscale
response carries only the single output path and no info string. -/
theorem responses_shape (sv : Services) (cfg : Config)
    (reqt : Txt2ImgRequest) (reqi : Img2ImgRequest) (requ : UpscaleRequest) :
    (∀ t, f_txt2img_trace sv cfg reqt = Except.ok t →
      t.response = [("outputs", RVal.listV t.outputs), ("info", RVal.strV t.info)]) ∧
    (∀ t, f_img2img_trace sv cfg reqi = Except.ok t →
      t.response = [("outputs", RVal.listV t.outputs), ("info", RVal.strV t.info)]) ∧
    (∀ r ws, f_upscale_run sv cfg requ = (UpscaleOutcome.ok r, ws) →
      r.map Prod.fst = ["output"]) := by
  refine ⟨?_, ?_, ?_⟩
  · intro t hok
    cases hs : get_sampler_index sv.samplers
        (pyOrStr reqt.sampler_name (cfg "txt2img").sampler_name) with
    | none =>
      simp only [f_txt2img_trace, hs] at hok
      exact Except.noConfusion hok
    | some si =>
      simp only [f_txt2img_trace, hs, Except.ok.injEq] at hok
      subst hok
      rfl
  · intro t hok
    cases hs : get_sampler_index sv.samplers
        (pyOrStr reqi.sampler_name (cfg "img2img").sampler_name) with
    | none =>
      simp only [f_img2img_trace, hs] at hok
      exact Except.noConfusion hok
    | some si =>
      cases hu : get_upscaler_index sv.sd_upscalers
          (pyOrStr reqi.upscaler_name (cfg "img2img").upscaler_name) with
      | none =>
        simp only [f_img2img_trace, hs, hu] at hok
        exact Except.noConfusion hok
      | some ui =>
        simp only [f_img2img_trace, hs, hu, Except.ok.injEq] at hok
        subst hok
        rfl
  · intro r ws hok
    cases hu : get_upscaler_index sv.sd_upscalers
        (pyOrStr requ.upscaler_name (cfg "upscale").upscaler_name) with
    | none =>
      simp only [f_upscale_run, hu, Prod.mk.injEq] at hok
      exact UpscaleOutcome.noConfusion hok.1
    | some ui =>
      cases hg : sv.sd_upscalers[ui]? with
      | none =>
        simp only [f_upscale_run, hu, hg, Prod.mk.injEq] at hok
        exact UpscaleOutcome.noConfusion hok.1
      | some u =>
        by_cases hn : u.name = "None"
        · simp [f_upscale_run, hu, hg, hn] at hok
        · simp only [f_upscale_run, hu, hg] at hok
          rw [if_neg hn] at hok
          injection hok with h1 h2
          injection h1 with h3
          rw [← h3]
          rfl

/-- Witness: the generate response carries the outputs and the info string;
the successful upscale response carries only the output key. -/
theorem responses_shape_witness :
    (∃ t, f_txt2img_trace svC cfgC reqT0 = Except.ok t ∧
      t.response = [("outputs", RVal.listV t.outputs), ("info", RVal.strV t.info)]) ∧
    (∃ r ws, f_upscale_run svC cfgC reqUL = (UpscaleOutcome.ok r, ws) ∧
      r.map Prod.fst = ["output"]) := by
  constructor
  · exact ⟨_, rfl, (responses_shape svC cfgC reqT0 (reqI (some 0)) reqUL).1 _ rfl⟩
  · exact ⟨_, _, rfl, (responses_shape svC cfgC reqT0 (reqI (some 0)) reqUL).2.2 _ _ rfl⟩

/-- C9 counterexample: the generate endpoint reads its defaults from the
profile keyed "txt2img", not from a profile keyed "generate": under a
config whose "txt2img" profile defaults steps to 7 and whose "generate"
profile defaults steps to 9, the engine receives steps 7. -/
theorem config_keys_cex :
    Except.map (fun t => t.args.steps) (f_txt2img_trace svC cfgK reqT0) = Except.ok 7 ∧
    (cfgK "generate").steps = 9 ∧ (7 : Int) ≠ 9 := by
  refine ⟨rfl, rfl, by decide⟩

/-- C9 (amended): each endpoint depends only on the profile at its own key
in the per-request config snapshot: "txt2img" for generate, "img2img" for
edit, "upscale" for upscale and "plugin" for the info endpoint. -/
theorem config_profile_keys (sv : Services) (cfg cfg2 : Config)
    (reqt : Txt2ImgRequest) (reqi : Img2ImgRequest) (requ : UpscaleRequest) :
    (cfg "txt2img" = cfg2 "txt2img" →
      f_txt2img_trace sv cfg reqt = f_txt2img_trace sv cfg2 reqt) ∧
    (cfg "img2img" = cfg2 "img2img" →
      f_img2img_trace sv cfg reqi = f_img2img_trace sv cfg2 reqi) ∧
    (cfg "upscale" = cfg2 "upscale" →
      f_upscale_run sv cfg requ = f_upscale_run sv cfg2 requ) ∧
    (cfg "plugin" = cfg2 "plugin" → read_item sv cfg = read_item sv cfg2) := by
  refine ⟨fun h => ?_, fun h => ?_, fun h => ?_, fun h => ?_⟩
  · simp only [f_txt2img_trace, h]
  · simp only [f_img2img_trace, h]
  · simp only [f_upscale_run, h]
  · simp only [read_item, h]

/-- Witness: two configs that agree on the "txt2img" profile but disagree
on a "generate" profile produce identical generate runs. -/
theorem config_profile_keys_witness :
    cfgK "txt2img" = cfgK2 "txt2img" ∧
    f_txt2img_trace svC cfgK reqT0 = f_txt2img_trace svC cfgK2 reqT0 :=
  ⟨rfl, (config_profile_keys svC cfgK cfgK2 reqT0 (reqI (some 0)) reqU0).1 rfl⟩

/-- C5 counterexample: the unix timestamp is read once per image save, not
once per request: under a clock that advances between the two saves of one
generate batch, the two persisted files carry different timestamp
prefixes. -/
theorem timestamp_per_image_cex :
    Except.map (fun t => t.stamps) (f_txt2img_trace svC cfgC reqT0) =
      Except.ok [(0, 0), (1, 1)] ∧
    Except.map (fun t => t.outputs) (f_txt2img_trace svC cfgC reqT0) =
      Except.ok ["out/0_0.png", "out/1_1.png"] ∧
    ¬ List.Pairwise (fun a b => a.1 = b.1) [((0 : Int), (0 : Nat)), (1, 1)] := by
  refine ⟨rfl, rfl, by decide⟩

/-- C5 (amended): each image's timestamp is taken at its own save; when the
clock does not advance during persistence, every image of the batch shares
the timestamp ts, generate and edit name image i as ts_i.png (the index is
present even for a single image), and upscale names its single output
ts.png. -/
theorem timestamps_constant_clock (sv : Services) (cfg : Config) (ts : Int)
    (hc : ∀ n, sv.clock n = ts)
    (reqt : Txt2ImgRequest) (reqi : Img2ImgRequest) (requ : UpscaleRequest) :
    (∀ t, f_txt2img_trace sv cfg reqt = Except.ok t →
      t.stamps = (List.range t.images.length).map (fun i => (ts, i)) ∧
      t.outputs = (List.range t.images.length).map (fun i =>
        save_img (cfg "txt2img").sample_path
          (toString ts ++ "_" ++ toString i ++ ".png"))) ∧
    (∀ t, f_img2img_trace sv cfg reqi = Except.ok t →
      t.stamps = (List.range t.images.length).map (fun i => (ts, i)) ∧
      t.outputs = (List.range t.images.length).map (fun i =>
        save_img (cfg "img2img").sample_path
          (toString ts ++ "_" ++ toString i ++ ".png"))) ∧
    (∀ r ws, f_upscale_run sv cfg requ = (UpscaleOutcome.ok r, ws) →
      ws = [ save_img (cfg "upscale").sample_path (toString ts ++ ".png")]) := by
  refine ⟨?_, ?_, ?_⟩
  · intro t hok
    cases hs : get_sampler_index sv.samplers
        (pyOrStr reqt.sampler_name (cfg "txt2img").sampler_name) with
    | none =>
      simp only [f_txt2img_trace, hs] at hok
      exact Except.noConfusion hok
    | some si =>
      simp only [f_txt2img_trace, hs, Except.ok.injEq] at hok
      subst hok
      constructor
      · simp only [hc]
        exact enum_map_fst_fun _ _
      · simp only [hc]
        rw [enum_map_fst_fun _ (fun i => ((ts : Int), i)), List.map_map]
        rfl
  · intro t hok
    cases hs : get_sampler_index sv.samplers
        (pyOrStr reqi.sampler_name (cfg "img2img").sampler_name) with
    | none =>
      simp only [f_img2img_trace, hs] at hok
      exact Except.noConfusion hok
    | some si =>
      cases hu : get_upscaler_index sv.sd_upscalers
          (pyOrStr reqi.upscaler_name (cfg "img2img").upscaler_name) with
      | none =>
        simp only [f_img2img_trace, hs, hu] at hok
        exact Except.noConfusion hok
      | some ui =>
        simp only [f_img2img_trace, hs, hu, Except.ok.injEq] at hok
        subst hok
        constructor
        · simp only [hc]
          exact enum_map_fst_fun _ _
        · simp only [hc]
          rw [enum_map_fst_fun _ (fun i => ((ts : Int), i)), List.map_map]
          rfl
  · intro r ws hok
    cases hu : get_upscaler_index sv.sd_upscalers
        (pyOrStr requ.upscaler_name (cfg "upscale").upscaler_name) with
    | none =>
      simp only [f_upscale_run, hu, Prod.mk.injEq] at hok
      exact UpscaleOutcome.noConfusion hok.1
    | some ui =>
      cases hg : sv.sd_upscalers[ui]? with
      | none =>
        simp only [f_upscale_run, hu, hg, Prod.mk.injEq] at hok
        exact UpscaleOutcome.noConfusion hok.1
      | some u =>
        by_cases hn : u.name = "None"
        · simp [f_upscale_run, hu, hg, hn] at hok
        · simp only [f_upscale_run, hu, hg] at hok
          rw [if_neg hn] at hok
          injection hok with h1 h2
          rw [← h2, hc 0]

/-- Witness: with the clock frozen at second 5 and an engine returning two
images, the generate request persists exactly out/5_0.png and
out/5_1.png. -/
theorem timestamps_constant_clock_witness :
    (∀ n, svC5.clock n = 5) ∧
    (∃ t, f_txt2img_trace svC5 cfgC reqT0 = Except.ok t ∧
      t.outputs = ["out/5_0.png", "out/5_1.png"]) := by
  refine ⟨fun _ => rfl, ⟨_, rfl, ?_⟩⟩
  have h := ((timestamps_constant_clock svC5 cfgC 5 (fun _ => rfl) reqT0
    (reqI (some 0)) reqU0).1 _ rfl).2
  rw [h]
  rfl

/-- C8 counterexample: with max_size = 700 (not a multiple of 64) the
64-multiple rounding pushes the capped width to 704, exceeding max_size. -/
theorem fix_aspect_ratio_max_cex :
    ( fix_aspect_ratio 512 700 1000 100) = (704, 64) ∧ ¬((704 : Int) ≤ 700) := by
  constructor
  · norm_num [ fix_aspect_ratio, round64]
  · decide

/-- C8 (amended): for positive base_size, max_size, w and h, the fitter's
outputs are the nearest-64 roundings of a pair in exactly the ratio w / h
(so each output sits within 32 of an exact-ratio value), and neither output
exceeds max_size rounded to the nearest multiple of 64 (hence neither
exceeds max_size itself whenever max_size is a multiple of 64). -/
theorem fix_aspect_ratio_spec (b m w h : Int) (hb : 0 < b) (hm : 0 < m)
    (hw : 0 < w) (hh : 0 < h) :
    ∃ rwq rhq : ℚ, 0 < rhq ∧ rwq / rhq = (w : ℚ) / (h : ℚ) ∧
      ( fix_aspect_ratio b m w h).1 = round64 rwq ∧
      ( fix_aspect_ratio b m w h).2 = round64 rhq ∧
      |((( fix_aspect_ratio b m w h).1 : Int) : ℚ) - rwq| ≤ 32 ∧
      |((( fix_aspect_ratio b m w h).2 : Int) : ℚ) - rhq| ≤ 32 ∧
      ( fix_aspect_ratio b m w h).1 ≤ round64 (m : ℚ) ∧
      ( fix_aspect_ratio b m w h).2 ≤ round64 (m : ℚ) := by
  have hbQ : (0 : ℚ) < (b : ℚ) := by exact_mod_cast hb
  have hmQ : (0 : ℚ) < (m : ℚ) := by exact_mod_cast hm
  have hwQ : (0 : ℚ) < (w : ℚ) := by exact_mod_cast hw
  have hhQ : (0 : ℚ) < (h : ℚ) := by exact_mod_cast hh
  have hbne : (b : ℚ) ≠ 0 := ne_of_gt hbQ
  have hmne : (m : ℚ) ≠ 0 := ne_of_gt hmQ
  have hwne : (w : ℚ) ≠ 0 := ne_of_gt hwQ
  have hhne : (h : ℚ) ≠ 0 := ne_of_gt hhQ
  have hrpos : (0 : ℚ) < (w : ℚ) / (h : ℚ) := div_pos hwQ hhQ
  have hrne : (w : ℚ) / (h : ℚ) ≠ 0 := ne_of_gt hrpos
  simp only [ fix_aspect_ratio]
  split_ifs with h1 h2 h3
  · refine ⟨(m : ℚ), (b : ℚ) * ((m : ℚ) / ((b : ℚ) * ((w : ℚ) / (h : ℚ)))), ?_, ?_, rfl, rfl,
      abs_round64_sub _, abs_round64_sub _, le_refl _, ?_⟩
    · exact mul_pos hbQ (div_pos hmQ (mul_pos hbQ hrpos))
    · field_simp
      ring
    · have key : (b : ℚ) * ((m : ℚ) / ((b : ℚ) * ((w : ℚ) / (h : ℚ)))) =
          (m : ℚ) / ((w : ℚ) / (h : ℚ)) := by
        field_simp
        ring
      rw [key]
      exact round64_mono (div_le_self hmQ.le h1)
  · push_neg at h2
    refine ⟨(b : ℚ) * ((w : ℚ) / (h : ℚ)), (b : ℚ), hbQ, ?_, rfl, rfl,
      abs_round64_sub _, abs_round64_sub _, round64_mono h2, ?_⟩
    · exact mul_div_cancel_left₀ _ hbne
    · exact round64_mono ((le_mul_of_one_le_right hbQ.le h1).trans h2)
  · refine ⟨(b : ℚ) * ((m : ℚ) / ((b : ℚ) / ((w : ℚ) / (h : ℚ)))), (m : ℚ), hmQ, ?_, rfl, rfl,
      abs_round64_sub _, abs_round64_sub _, ?_, le_refl _⟩
    · field_simp
      ring
    · push_neg at h1
      have key : (b : ℚ) * ((m : ℚ) / ((b : ℚ) / ((w : ℚ) / (h : ℚ)))) =
          (m : ℚ) * ((w : ℚ) / (h : ℚ)) := by
        field_simp
        ring
      rw [key]
      exact round64_mono (mul_le_of_le_one_right hmQ.le h1.le)
  · push_neg at h1 h3
    refine ⟨(b : ℚ), (b : ℚ) / ((w : ℚ) / (h : ℚ)), div_pos hbQ hrpos, ?_, rfl, rfl,
      abs_round64_sub _, abs_round64_sub _, ?_, round64_mono h3⟩
    · field_simp
      ring
    · have hble : (b : ℚ) ≤ (b : ℚ) / ((w : ℚ) / (h : ℚ)) := by
        rw [le_div_iff₀ hrpos]
        exact mul_le_of_le_one_right hbQ.le h1.le
      exact round64_mono (hble.trans h3)

/-- Witness: the spec's own example, fit(512, 768, 1000, 500). -/
theorem fix_aspect_ratio_spec_witness :
    (0 : Int) < 512 ∧ (0 : Int) < 768 ∧ (0 : Int) < 1000 ∧ (0 : Int) < 500 ∧
    (∃ rwq rhq : ℚ, 0 < rhq ∧ rwq / rhq = ((1000 : Int) : ℚ) / ((500 : Int) : ℚ) ∧
      ( fix_aspect_ratio 512 768 1000 500).1 = round64 rwq ∧
      ( fix_aspect_ratio 512 768 1000 500).2 = round64 rhq ∧
      |((( fix_aspect_ratio 512 768 1000 500).1 : Int) : ℚ) - rwq| ≤ 32 ∧
      |((( fix_aspect_ratio 512 768 1000 500).2 : Int) : ℚ) - rhq| ≤ 32 ∧
      ( fix_aspect_ratio 512 768 1000 500).1 ≤ round64 ((768 : Int) : ℚ) ∧
      ( fix_aspect_ratio 512 768 1000 500).2 ≤ round64 ((768 : Int) : ℚ)) :=
  ⟨by decide, by decide, by decide, by decide,
    fix_aspect_ratio_spec 512 768 1000 500 (by decide) (by decide) (by decide) (by decide)⟩
